import Mathlib

/-!
# Portfolio page script (`src/script.js`)

A shallow embedding of the `DOMContentLoaded` handler of `script.js`:
the theme controller (`setTheme`, start-up selection, toggle click), the
reveal observer callback, the portrait parallax handlers and the ambient
particle field (`init`, `step`).

Conventions of the embedding

* JavaScript numbers are exact rationals (`ℚ`).
* A DOM lookup that may return `null` is an `Option`; calling a method on
  `null` raises a `TypeError`, modelled as `Except.error`.
* `Math.random()` is a stream `rnd : ℕ → ℚ` consumed in call order.
* Canvas drawing calls have no effect on the particle collection and are
  left out of `step`.
-/

namespace Portfolio

/-! ## Runtime errors -/

/-- Errors a handler can raise: a method call on a `null` reference. -/
inductive JsError where
  | typeError (what : String)
  deriving DecidableEq, Repr

/-! ## Theme controller (script.js lines 8-36) -/

/-- The `.toggle-knob` element: only its `style.transform` is touched. -/
structure Knob where
  transform : String
  deriving DecidableEq, Repr

/-- The `#themeToggle` element: its `aria-pressed` attribute (absent until
    set) and the knob found by `themeBtn?.querySelector('.toggle-knob')`. -/
structure ThemeBtn where
  ariaPressed : Option String
  knob : Option Knob
  deriving DecidableEq, Repr

/-- Everything the theme code reads or writes. `rootLight` is
    `root.classList.contains('light')`, `themeBtn` is the result of
    `document.getElementById('themeToggle')`, `stored` is the value of
    `localStorage.getItem('site-theme')` (`none` for `null`). -/
structure ThemeState where
  rootLight : Bool
  themeBtn : Option ThemeBtn
  stored : Option String
  deriving DecidableEq, Repr

/-- Fresh read of the flag: `localStorage.getItem('site-theme')`. -/
def getItem (st : ThemeState) : Option String := st.stored

/-- One branch of `setTheme`: `root.classList.add/remove('light')`, then
    `themeBtn.setAttribute('aria-pressed', pressed)` (a `TypeError` when
    `themeBtn` is `null`), then `if (knob) knob.style.transform = offset`,
    then `localStorage.setItem('site-theme', flag)`. -/
def applyTheme (light : Bool) (pressed offset flag : String) (st : ThemeState) :
    Except JsError ThemeState :=
  match st.themeBtn with
  | none => Except.error (JsError.typeError "themeBtn.setAttribute")
  | some btn =>
    Except.ok
      { rootLight := light
        themeBtn := some
          { ariaPressed := some pressed
            knob := btn.knob.map (fun _ => { transform := offset }) }
        stored := some flag }

/-- The function `setTheme(mode)` of script.js lines 13-25. -/
def setTheme (mode : String) (st : ThemeState) : Except JsError ThemeState :=
  if mode = "light" then
    applyTheme true "true" "translateX(20px)" "light" st
  else
    applyTheme false "false" "translateX(0)" "dark" st

/-- JavaScript truthiness of `saved`: `null` and the empty string are falsy. -/
def truthy : Option String → Bool
  | none => false
  | some s => s != ""

/-- The mode chosen at start-up (script.js lines 28-31). `matchMedia` is
    `none` when `window.matchMedia` is unavailable and otherwise holds
    `window.matchMedia('(prefers-color-scheme: light)').matches`. -/
def initialMode (saved : Option String) (matchMedia : Option Bool) : String :=
  if truthy saved then
    (if saved = some "light" then "light" else "dark")
  else if matchMedia = some true then "light"
  else "dark"

/-- Theme initialisation: read the flag, pick the mode, call `setTheme`. -/
def initTheme (st : ThemeState) (matchMedia : Option Bool) : Except JsError ThemeState :=
  setTheme (initialMode (getItem st) matchMedia) st

/-- The click listener of the toggle (script.js lines 33-36). -/
def toggleClick (st : ThemeState) : Except JsError ThemeState :=
  let isLight := st.rootLight
  setTheme (if isLight then "dark" else "light") st

/-- Two clicks in a row; the second runs on the state left by the first. -/
def toggleTwice (st : ThemeState) : Except JsError ThemeState :=
  match toggleClick st with
  | Except.error e => Except.error e
  | Except.ok st1 => toggleClick st1

/-! ## Particle field (script.js lines 100-148) -/

/-- A particle record as pushed by `init`. -/
structure Particle where
  x : ℚ
  y : ℚ
  r : ℚ
  vx : ℚ
  vy : ℚ
  alpha : ℚ
  deriving DecidableEq

/-- The function `Math.round`: nearest integer, ties towards `+∞`. -/
def mathRound (q : ℚ) : ℤ := ⌊q + 1 / 2⌋

/-- The constant `count` of `init`. -/
def particleCount (w h : ℚ) : ℤ := max 8 (mathRound ((w * h) / 180000))

/-- The `i`-th record pushed by the loop of `init`; each record draws six
    numbers from `Math.random()` in the order `x, y, r, vx, vy, alpha`. -/
def mkParticle (w h : ℚ) (rnd : ℕ → ℚ) (i : ℕ) : Particle :=
  { x := rnd (6 * i) * w
    y := rnd (6 * i + 1) * h
    r := rnd (6 * i + 2) * (13 / 10) + 6 / 10
    vx := (rnd (6 * i + 3) - 1 / 2) * (12 / 100)
    vy := (rnd (6 * i + 4) - 1 / 2) * (12 / 100)
    alpha := rnd (6 * i + 5) * (28 / 100) + 6 / 100 }

/-- The function `init()`: the collection is emptied and refilled with
    `count` fresh records. -/
def init (w h : ℚ) (rnd : ℕ → ℚ) : List Particle :=
  (List.range (particleCount w h).toNat).map (mkParticle w h rnd)

/-- The function `resize()`: take the viewport size, then `init()`. -/
def resize (innerWidth innerHeight : ℕ) (rnd : ℕ → ℚ) : List Particle :=
  init (innerWidth : ℚ) (innerHeight : ℚ) rnd

/-- Wraparound of one coordinate, the two `if`s of `step` in order. -/
def wrapCoord (dim c : ℚ) : ℚ :=
  let c1 := if c < -10 then dim + 10 else c
  if c1 > dim + 10 then -10 else c1

/-- The loop body of `step()` on one particle. -/
def stepParticle (w h : ℚ) (p : Particle) : Particle :=
  { p with x := wrapCoord w (p.x + p.vx), y := wrapCoord h (p.y + p.vy) }

/-- The function `step()`: one frame over the whole collection. -/
def step (w h : ℚ) (particles : List Particle) : List Particle :=
  particles.map (stepParticle w h)

/-- The collection after `n` frames. -/
def stepN (w h : ℚ) : ℕ → List Particle → List Particle
  | 0, ps => ps
  | n + 1, ps => stepN w h n (step w h ps)

/-! ## Reveal observer (script.js lines 49-56) -/

/-- An observer entry: the watched element it is about (by index in the
    page) and its `isIntersecting` flag. -/
structure Entry where
  target : ℕ
  isIntersecting : Bool
  deriving DecidableEq, Repr

/-- The method `classList.add(c)`: the token is appended unless present. -/
def classListAdd (cls : List String) (c : String) : List String :=
  if c ∈ cls then cls else cls ++ [c]

/-- The class lists of the elements of the page, by element index. -/
abbrev ClassMap := ℕ → List String

/-- The body of `entries.forEach` in the observer callback. -/
def revealEntry (dom : ClassMap) (e : Entry) : ClassMap :=
  if e.isIntersecting then
    Function.update dom e.target (classListAdd (dom e.target) "inview")
  else dom

/-- The observer callback: `entries.forEach(...)`. -/
def ioCallback (entries : List Entry) (dom : ClassMap) : ClassMap :=
  entries.foldl revealEntry dom

/-- A sequence of observer callbacks, delivered in order. -/
def ioRun (callbacks : List (List Entry)) (dom : ClassMap) : ClassMap :=
  callbacks.foldl (fun d entries => ioCallback entries d) dom

/-! ## Portrait parallax (script.js lines 58-97) -/

/-- The result of `wrap.getBoundingClientRect()`. -/
structure Rect where
  left : ℚ
  top : ℚ
  width : ℚ
  height : ℚ
  deriving DecidableEq

/-- The fields of a mouse event or touch point read by `onMove`. -/
structure PointerEvt where
  clientX : ℚ
  clientY : ℚ
  deriving DecidableEq

/-- The constants `tx`, `ty`, `rot` computed by `onMove`. -/
structure Tilt where
  tx : ℚ
  ty : ℚ
  rot : ℚ
  deriving DecidableEq

/-- The arithmetic of `onMove` (script.js lines 63-70). -/
def tiltOf (r : Rect) (e : PointerEvt) : Tilt :=
  let cx := r.left + r.width / 2
  let cy := r.top + r.height / 2
  let dx := e.clientX - cx
  let dy := e.clientY - cy
  { tx := (dx / r.width) * 12
    ty := (dy / r.height) * 12
    rot := (dx / r.width) * 6 }

/-- The value `translateZ(40px) rotateY(a deg) rotateX(b deg)` of the
    portrait transform, by its two angles. -/
structure Transform3d where
  rotateY : ℚ
  rotateX : ℚ
  deriving DecidableEq

/-- The `#portraitWrap` element: its bounding box, the custom properties
    `--tx`, `--ty` (px) and `--r` (deg), whether it carries the class
    `tilt`, and the inner `.portrait` found by `wrap.querySelector`
    (`none` for `null`) with its `style.transform`. -/
structure Wrap where
  rect : Rect
  tx : ℚ
  ty : ℚ
  r : ℚ
  tilt : Bool
  portrait : Option Transform3d
  deriving DecidableEq

/-- Assignment to `portrait.style.transform`; a `TypeError` on `null`. -/
def setPortraitTransform (t : Transform3d) (wrap : Wrap) : Except JsError Wrap :=
  match wrap.portrait with
  | none => Except.error (JsError.typeError "portrait.style")
  | some _ => Except.ok { wrap with portrait := some t }

/-- The handler `onMove` (script.js lines 62-76). -/
def onMove (e : PointerEvt) (wrap : Wrap) : Except JsError Wrap :=
  let t := tiltOf wrap.rect e
  let wrap1 := { wrap with tx := t.tx, ty := t.ty, r := t.rot, tilt := true }
  setPortraitTransform { rotateY := t.rot, rotateX := -t.ty / 4 } wrap1

/-- The handler `onLeave` (script.js lines 77-83). -/
def onLeave (wrap : Wrap) : Except JsError Wrap :=
  let wrap1 := { wrap with tx := 0, ty := 0, r := 0, tilt := false }
  setPortraitTransform { rotateY := 0, rotateX := 0 } wrap1

/-- The `touchmove` listener: nothing without a first touch point. -/
def onTouchMove (touches : Option (List PointerEvt)) (wrap : Wrap) : Except JsError Wrap :=
  match touches with
  | some (t :: _) => onMove t wrap
  | _ => Except.ok wrap

/-- The `focus` listener (script.js lines 92-95). -/
def onFocus (wrap : Wrap) : Except JsError Wrap :=
  setPortraitTransform { rotateY := 4, rotateX := -4 } { wrap with tilt := true }

/-! ## The `DOMContentLoaded` handler as a whole -/

/-- What the handler finds in the document and the window. -/
structure Page where
  hasYear : Bool
  theme : ThemeState
  matchMedia : Option Bool
  hasResumeBtn : Bool
  watched : ℕ
  wrap : Option Wrap
  innerWidth : ℕ
  innerHeight : ℕ
  navLinks : ℕ
  socialLinks : ℕ

/-- What the handler has set up when it returns normally. -/
structure Loaded where
  theme : ThemeState
  yearShown : Bool
  themeClick : Bool
  resumeClick : Bool
  observed : ℕ
  parallax : Bool
  particles : List Particle
  navHandlers : ℕ
  staggered : ℕ

/-- The handler body in source order. The theme initialisation of lines
    28-31 runs before every later feature is set up, so an error raised
    there leaves all of them uninitialised. -/
def domContentLoaded (pg : Page) (rnd : ℕ → ℚ) : Except JsError Loaded :=
  match initTheme pg.theme pg.matchMedia with
  | Except.error e => Except.error e
  | Except.ok theme =>
    Except.ok
      { theme := theme
        yearShown := pg.hasYear
        themeClick := pg.theme.themeBtn.isSome
        resumeClick := pg.hasResumeBtn
        observed := pg.watched
        parallax := pg.wrap.isSome
        particles := resize pg.innerWidth pg.innerHeight rnd
        navHandlers := pg.navLinks
        staggered := pg.socialLinks }

/-! ## Concrete pages and states used as test inputs -/

/-- A portrait container with a 200 by 300 box at (100, 50) and an inner
    `.portrait` image. -/
def sampleWrap : Wrap :=
  { rect := { left := 100, top := 50, width := 200, height := 300 }
    tx := 0
    ty := 0
    r := 0
    tilt := false
    portrait := some { rotateY := 0, rotateX := 0 } }

/-- The same container without an inner `.portrait` element. -/
def wrapWithoutPortrait : Wrap := { sampleWrap with portrait := none }

/-- A page that has every looked-up element except `#themeToggle`. -/
def pageWithoutToggle : Page :=
  { hasYear := true
    theme := { rootLight := false, themeBtn := none, stored := none }
    matchMedia := some false
    hasResumeBtn := true
    watched := 3
    wrap := some sampleWrap
    innerWidth := 1200
    innerHeight := 800
    navLinks := 4
    socialLinks := 3 }

/-- A dark page with toggle and knob. -/
def darkState : ThemeState :=
  { rootLight := false
    themeBtn := some { ariaPressed := some "false", knob := some { transform := "translateX(0)" } }
    stored := some "dark" }

/-- A dark page whose persisted flag has meanwhile been set to `light`
    from elsewhere (the store is shared by all pages of the site). -/
def darkPageLightFlag : ThemeState := { darkState with stored := some "light" }

/-- A page whose persisted flag is the empty string. -/
def emptyFlagState : ThemeState := { darkState with stored := some "" }

/-- A collection with one particle far outside a 1200 by 800 viewport and
    moving fast. -/
def strayParticles : List Particle :=
  [{ x := 5000, y := -37, r := 1, vx := 900, vy := -40, alpha := 1 / 10 }]

/-- A random source that always returns 0. -/
def zeroRnd : ℕ → ℚ := fun _ => 0

/-! ## Particle count -/

theorem mathRound_natCast_div (a : ℕ) :
    mathRound ((a : ℚ) / 180000) = (((a + 90000) / 180000 : ℕ) : ℤ) := by
  unfold mathRound
  have h : (a : ℚ) / 180000 + 1 / 2 = ((a + 90000 : ℕ) : ℚ) / ((180000 : ℕ) : ℚ) := by
    push_cast
    ring
  rw [h, Rat.floor_natCast_div_natCast]
  norm_cast

theorem init_length (w h : ℚ) (rnd : ℕ → ℚ) :
    (init w h rnd).length = (particleCount w h).toNat := by
  simp [init]

theorem resize_length (a b : ℕ) (g : ℕ → ℚ) :
    (resize a b g).length = max 8 ((a * b + 90000) / 180000) := by
  have hc : particleCount (a : ℚ) (b : ℚ) = ((max 8 ((a * b + 90000) / 180000) : ℕ) : ℤ) := by
    unfold particleCount
    have : (a : ℚ) * (b : ℚ) = ((a * b : ℕ) : ℚ) := by push_cast; ring
    rw [this, mathRound_natCast_div]
    push_cast
    rfl
  rw [resize, init_length, hc, Int.toNat_ofNat]

/-- C2: `resize`/`init` produce exactly `max(8, round(A / 180000))`
    particles for a viewport of area `A = w * h`, where `round` is
    round-half-up (the integer `k` with `k - 1/2 ≤ A/180000 < k + 1/2`,
    equivalently `(A + 90000) / 180000` rounded down); the number depends
    only on `A`, and a 1200 by 800 viewport gets 8. -/
theorem resize_particle_count (w h : ℕ) (rnd : ℕ → ℚ) :
    (((resize w h rnd).length : ℕ) : ℤ) = max 8 (mathRound (((w * h : ℕ) : ℚ) / 180000))
    ∧ ((mathRound (((w * h : ℕ) : ℚ) / 180000) : ℤ) : ℚ) - 1 / 2 ≤ ((w * h : ℕ) : ℚ) / 180000
    ∧ ((w * h : ℕ) : ℚ) / 180000 < ((mathRound (((w * h : ℕ) : ℚ) / 180000) : ℤ) : ℚ) + 1 / 2
    ∧ (resize w h rnd).length = max 8 ((w * h + 90000) / 180000)
    ∧ (∀ (w2 h2 : ℕ) (rnd2 : ℕ → ℚ), w2 * h2 = w * h →
        (resize w2 h2 rnd2).length = (resize w h rnd).length)
    ∧ (resize 1200 800 rnd).length = 8 := by
  have hlen := resize_length
  refine ⟨?_, ?_, ?_, hlen w h rnd, ?_, ?_⟩
  · rw [hlen, mathRound_natCast_div]
    push_cast
    rfl
  · have := Int.floor_le (((w * h : ℕ) : ℚ) / 180000 + 1 / 2)
    unfold mathRound
    linarith
  · have := Int.lt_floor_add_one (((w * h : ℕ) : ℚ) / 180000 + 1 / 2)
    unfold mathRound
    linarith
  · intro w2 h2 rnd2 hA
    rw [hlen, hlen, hA]
  · rw [hlen]
    norm_num

/-! ## Theme controller -/

theorem applyTheme_ok (light : Bool) (pressed offset flag : String) (st : ThemeState)
    (btn : ThemeBtn) (hbtn : st.themeBtn = some btn) :
    applyTheme light pressed offset flag st = Except.ok
      { rootLight := light
        themeBtn := some
          { ariaPressed := some pressed
            knob := btn.knob.map (fun _ => { transform := offset }) }
        stored := some flag } := by
  simp [applyTheme, hbtn]

/-- The state written by the `light` branch of `setTheme`. -/
theorem setTheme_light_ok (st : ThemeState) (btn : ThemeBtn) (hbtn : st.themeBtn = some btn) :
    setTheme "light" st = Except.ok
      { rootLight := true
        themeBtn := some
          { ariaPressed := some "true"
            knob := btn.knob.map (fun _ => { transform := "translateX(20px)" }) }
        stored := some "light" } := by
  rw [setTheme, if_pos rfl]
  exact applyTheme_ok _ _ _ _ st btn hbtn

/-- The state written by the `else` branch of `setTheme`. -/
theorem setTheme_other_ok (mode : String) (hm : mode ≠ "light") (st : ThemeState)
    (btn : ThemeBtn) (hbtn : st.themeBtn = some btn) :
    setTheme mode st = Except.ok
      { rootLight := false
        themeBtn := some
          { ariaPressed := some "false"
            knob := btn.knob.map (fun _ => { transform := "translateX(0)" }) }
        stored := some "dark" } := by
  rw [setTheme, if_neg hm]
  exact applyTheme_ok _ _ _ _ st btn hbtn

/-- C4: with the toggle present, `setTheme(mode)` returns normally and a
    fresh read of the persisted flag then yields `light` when `mode` is
    `light` and `dark` otherwise; so `light` and `dark` round-trip and the
    written flag is always one of the two. -/
theorem setTheme_flag_roundtrip (mode : String) (st : ThemeState) (btn : ThemeBtn)
    (hbtn : st.themeBtn = some btn) :
    (∃ st1, setTheme mode st = Except.ok st1
        ∧ getItem st1 = some (if mode = "light" then "light" else "dark")
        ∧ (getItem st1 = some "light" ∨ getItem st1 = some "dark"))
    ∧ (∃ st1, setTheme "light" st = Except.ok st1 ∧ getItem st1 = some "light")
    ∧ (∃ st1, setTheme "dark" st = Except.ok st1 ∧ getItem st1 = some "dark") := by
  refine ⟨?_, ?_, ?_⟩
  · by_cases hm : mode = "light"
    · subst hm
      rw [setTheme_light_ok st btn hbtn]
      exact ⟨_, rfl, by simp [getItem], by simp [getItem]⟩
    · rw [setTheme_other_ok mode hm st btn hbtn]
      exact ⟨_, rfl, by simp [getItem, hm], by simp [getItem]⟩
  · rw [setTheme_light_ok st btn hbtn]
    exact ⟨_, rfl, by simp [getItem]⟩
  · rw [setTheme_other_ok "dark" (by decide) st btn hbtn]
    exact ⟨_, rfl, by simp [getItem]⟩

theorem setTheme_flag_roundtrip_witness :
    darkState.themeBtn = some { ariaPressed := some "false", knob := some { transform := "translateX(0)" } }
    ∧ (∃ st1, setTheme "sepia" darkState = Except.ok st1
        ∧ getItem st1 = some (if "sepia" = "light" then "light" else "dark")
        ∧ (getItem st1 = some "light" ∨ getItem st1 = some "dark")) :=
  ⟨rfl, (setTheme_flag_roundtrip "sepia" darkState _ rfl).1⟩

/-- What `setTheme` leaves behind has the toggle attribute, the knob offset
    and the flag all agreeing with the root class. -/
theorem setTheme_idem (mode : String) (s0 st : ThemeState)
    (h : setTheme mode s0 = Except.ok st) :
    setTheme (if st.rootLight then "light" else "dark") st = Except.ok st := by
  cases hb : s0.themeBtn with
  | none => simp [setTheme, applyTheme, hb] at h
  | some btn =>
    by_cases hm : mode = "light"
    · subst hm
      rw [setTheme_light_ok s0 btn hb] at h
      injection h with h
      subst h
      rw [if_pos rfl, setTheme_light_ok _ _ rfl]
      cases btn.knob <;> rfl
    · rw [setTheme_other_ok mode hm s0 btn hb] at h
      injection h with h
      subst h
      simp only [Bool.false_eq_true, if_false]
      rw [setTheme_other_ok "dark" (by decide) _ _ rfl]
      cases btn.knob <;> rfl

/-- C5 (fails as stated): on a dark page whose persisted flag reads `light`,
    two toggle clicks leave the flag at `dark`; the state is not the
    original one. -/
theorem toggleTwice_changes_flag :
    toggleTwice darkPageLightFlag = Except.ok darkState
    ∧ toggleTwice darkPageLightFlag ≠ Except.ok darkPageLightFlag := by
  constructor
  · rfl
  · intro h
    have h2 : toggleTwice darkPageLightFlag = Except.ok darkState := rfl
    rw [h2] at h
    injection h with h
    have h3 := congrArg ThemeState.stored h
    simp [darkState, darkPageLightFlag] at h3

/-- C5 (amended): with the toggle present, one click calls `setTheme` with
    the opposite of the current visual mode, and two clicks return normally
    in the state that `setTheme` writes for the original visual mode: the
    root class is the original one, and the whole state is the original one
    whenever the original state was itself written by `setTheme`. -/
theorem toggleTwice_restores (st : ThemeState) (btn : ThemeBtn)
    (hbtn : st.themeBtn = some btn) :
    toggleClick st = setTheme (if st.rootLight then "dark" else "light") st
    ∧ ∃ st2, toggleTwice st = Except.ok st2
        ∧ st2.rootLight = st.rootLight
        ∧ setTheme (if st.rootLight then "light" else "dark") st = Except.ok st2
        ∧ ((∃ mode s0, setTheme mode s0 = Except.ok st) → st2 = st) := by
  refine ⟨rfl, ?_⟩
  have key : ∃ st2, toggleTwice st = Except.ok st2
      ∧ st2.rootLight = st.rootLight
      ∧ setTheme (if st.rootLight then "light" else "dark") st = Except.ok st2 := by
    cases hl : st.rootLight with
    | true =>
      refine ⟨{ rootLight := true
                themeBtn := some
                  { ariaPressed := some "true"
                    knob := btn.knob.map (fun _ => { transform := "translateX(20px)" }) }
                stored := some "light" }, ?_, rfl, ?_⟩
      · simp only [toggleTwice, toggleClick, hl, if_true]
        rw [setTheme_other_ok "dark" (by decide) st btn hbtn]
        simp only [Bool.false_eq_true, if_false]
        rw [setTheme_light_ok _ _ rfl]
        cases btn.knob <;> rfl
      · rw [if_pos rfl]
        exact setTheme_light_ok st btn hbtn
    | false =>
      refine ⟨{ rootLight := false
                themeBtn := some
                  { ariaPressed := some "false"
                    knob := btn.knob.map (fun _ => { transform := "translateX(0)" }) }
                stored := some "dark" }, ?_, rfl, ?_⟩
      · simp only [toggleTwice, toggleClick, hl, Bool.false_eq_true, if_false]
        rw [setTheme_light_ok st btn hbtn]
        simp only [if_true]
        rw [setTheme_other_ok "dark" (by decide) _ _ rfl]
        cases btn.knob <;> rfl
      · simp only [Bool.false_eq_true, if_false]
        exact setTheme_other_ok "dark" (by decide) st btn hbtn
  obtain ⟨st2, h1, h2, h3⟩ := key
  refine ⟨st2, h1, h2, h3, ?_⟩
  rintro ⟨mode, s0, hs⟩
  have := setTheme_idem mode s0 st hs
  rw [this] at h3
  injection h3 with h3
  exact h3.symm

theorem toggleTwice_restores_witness :
    darkState.themeBtn = some { ariaPressed := some "false", knob := some { transform := "translateX(0)" } }
    ∧ ∃ st2, toggleTwice darkState = Except.ok st2
        ∧ st2.rootLight = darkState.rootLight
        ∧ setTheme (if darkState.rootLight then "light" else "dark") darkState = Except.ok st2
        ∧ ((∃ mode s0, setTheme mode s0 = Except.ok darkState) → st2 = darkState) :=
  ⟨rfl, (toggleTwice_restores darkState _ rfl).2⟩

/-- C6: start-up with no persisted flag, toggle and knob present. A system
    preference for light gives the light mode (root class set, `aria-pressed`
    `true`, knob at `translateX(20px)`, flag `light`); an unavailable signal
    or one that does not report light gives the dark mode (root class
    absent, `aria-pressed` `false`, knob at `translateX(0)`, flag `dark`). -/
theorem initTheme_no_flag (rootLight : Bool) (pressed : Option String) (knob : Knob)
    (matchMedia : Option Bool) :
    initTheme
        { rootLight := rootLight
          themeBtn := some { ariaPressed := pressed, knob := some knob }
          stored := none } matchMedia
      = Except.ok
          (if matchMedia = some true then
            { rootLight := true
              themeBtn := some
                { ariaPressed := some "true", knob := some { transform := "translateX(20px)" } }
              stored := some "light" }
          else
            { rootLight := false
              themeBtn := some
                { ariaPressed := some "false", knob := some { transform := "translateX(0)" } }
              stored := some "dark" })
    ∧ initialMode none matchMedia = (if matchMedia = some true then "light" else "dark") := by
  constructor
  · by_cases hm : matchMedia = some true
    · simp only [initTheme, getItem, initialMode, truthy, hm, if_true, Bool.false_eq_true,
        if_false]
      rw [setTheme_light_ok _ _ rfl]
      rfl
    · simp only [initTheme, getItem, initialMode, truthy, hm, Bool.false_eq_true, if_false]
      rw [setTheme_other_ok "dark" (by decide) _ _ rfl]
      rfl
  · simp [initialMode, truthy]

/-- C7 (fails as stated): with the empty string persisted, the start-up
    mode follows the system preference, so two start-ups with the same
    persisted value end in different modes. -/
theorem initialMode_empty_flag_consults_system :
    initialMode (getItem emptyFlagState) (some true) = "light"
    ∧ initialMode (getItem emptyFlagState) (some false) = "dark"
    ∧ initTheme emptyFlagState (some true) ≠ initTheme emptyFlagState (some false) := by
  refine ⟨rfl, rfl, ?_⟩
  intro h
  have h1 : initTheme emptyFlagState (some true) = Except.ok
      { rootLight := true
        themeBtn := some
          { ariaPressed := some "true", knob := some { transform := "translateX(20px)" } }
        stored := some "light" } := rfl
  have h2 : initTheme emptyFlagState (some false) = Except.ok darkState := rfl
  rw [h1, h2] at h
  injection h with h
  have h3 := congrArg ThemeState.rootLight h
  simp [darkState] at h3

/-- C7 (amended): when a non-empty string is persisted under `site-theme`,
    the start-up mode is `light` if that string is `light` and `dark`
    otherwise, whatever the system preference; two start-ups that differ
    only in the system preference end in the same state. -/
theorem initTheme_flag_overrides_system (st : ThemeState) (saved : String)
    (hsaved : getItem st = some saved) (hne : saved ≠ "")
    (matchMedia1 matchMedia2 : Option Bool) :
    initialMode (getItem st) matchMedia1 = (if saved = "light" then "light" else "dark")
    ∧ initialMode (getItem st) matchMedia1 = initialMode (getItem st) matchMedia2
    ∧ initTheme st matchMedia1 = initTheme st matchMedia2 := by
  have hmode : ∀ mm : Option Bool,
      initialMode (getItem st) mm = (if saved = "light" then "light" else "dark") := by
    intro mm
    simp [initialMode, truthy, hsaved, hne]
  refine ⟨hmode _, ?_, ?_⟩
  · rw [hmode, hmode]
  · simp only [initTheme]
    rw [hmode, hmode]

theorem initTheme_flag_overrides_system_witness :
    getItem darkPageLightFlag = some "light" ∧ "light" ≠ ""
    ∧ initialMode (getItem darkPageLightFlag) (some false)
        = (if "light" = "light" then "light" else "dark")
    ∧ initTheme darkPageLightFlag (some false) = initTheme darkPageLightFlag none :=
  ⟨rfl, by decide,
    (initTheme_flag_overrides_system darkPageLightFlag "light" rfl (by decide) (some false) none).1,
    (initTheme_flag_overrides_system darkPageLightFlag "light" rfl (by decide)
      (some false) none).2.2⟩

/-! ## Missing elements -/

/-- The handler returns normally exactly when `#themeToggle` is present;
    no other missing element makes it raise. -/
theorem domContentLoaded_raises_iff (pg : Page) (rnd : ℕ → ℚ) :
    (∃ e, domContentLoaded pg rnd = Except.error e) ↔ pg.theme.themeBtn = none := by
  cases hb : pg.theme.themeBtn with
  | none =>
    simp only [iff_true]
    refine ⟨JsError.typeError "themeBtn.setAttribute", ?_⟩
    simp only [domContentLoaded, initTheme, setTheme, applyTheme, hb]
    split_ifs <;> rfl
  | some btn =>
    simp only [reduceCtorEq, iff_false, not_exists]
    intro e
    by_cases hm : initialMode (getItem pg.theme) pg.matchMedia = "light"
    · simp only [domContentLoaded, initTheme, hm]
      rw [setTheme_light_ok _ btn hb]
      simp
    · simp only [domContentLoaded, initTheme]
      rw [setTheme_other_ok _ hm _ btn hb]
      simp

/-- C1 (the code does otherwise): on a page without `#themeToggle` the
    start-up call of `setTheme` raises a `TypeError`, so the handler stops
    before any later feature is set up; and with `#portraitWrap` present but
    no inner `.portrait`, each of `onMove`, `onLeave` and the focus listener
    raises a `TypeError`. -/
theorem missing_element_raises (rnd : ℕ → ℚ) (e : PointerEvt) :
    domContentLoaded pageWithoutToggle rnd
      = Except.error (JsError.typeError "themeBtn.setAttribute")
    ∧ onMove e wrapWithoutPortrait = Except.error (JsError.typeError "portrait.style")
    ∧ onLeave wrapWithoutPortrait = Except.error (JsError.typeError "portrait.style")
    ∧ onFocus wrapWithoutPortrait = Except.error (JsError.typeError "portrait.style") := by
  refine ⟨rfl, rfl, rfl, rfl⟩

/-! ## Parallax bounds -/

/-- C8: for a bounding box of positive width and height and a pointer
    inside it, the values computed by `onMove` satisfy `|tx| ≤ 12`,
    `|ty| ≤ 12`, `|rot| ≤ 6` and `|ty/4| ≤ 6`. -/
theorem tiltOf_bounded (r : Rect) (e : PointerEvt)
    (hw : 0 < r.width) (hh : 0 < r.height)
    (hx1 : r.left ≤ e.clientX) (hx2 : e.clientX ≤ r.left + r.width)
    (hy1 : r.top ≤ e.clientY) (hy2 : e.clientY ≤ r.top + r.height) :
    |(tiltOf r e).tx| ≤ 12 ∧ |(tiltOf r e).ty| ≤ 12
    ∧ |(tiltOf r e).rot| ≤ 6 ∧ |(tiltOf r e).ty / 4| ≤ 6 := by
  have hxu : (e.clientX - (r.left + r.width / 2)) / r.width ≤ 1 / 2 := by
    rw [div_le_iff₀ hw]
    linarith
  have hxl : -(1 / 2) ≤ (e.clientX - (r.left + r.width / 2)) / r.width := by
    rw [le_div_iff₀ hw]
    linarith
  have hyu : (e.clientY - (r.top + r.height / 2)) / r.height ≤ 1 / 2 := by
    rw [div_le_iff₀ hh]
    linarith
  have hyl : -(1 / 2) ≤ (e.clientY - (r.top + r.height / 2)) / r.height := by
    rw [le_div_iff₀ hh]
    linarith
  simp only [tiltOf]
  refine ⟨abs_le.mpr ⟨?_, ?_⟩, abs_le.mpr ⟨?_, ?_⟩, abs_le.mpr ⟨?_, ?_⟩, abs_le.mpr ⟨?_, ?_⟩⟩ <;>
    linarith

theorem tiltOf_bounded_witness :
    |(tiltOf sampleWrap.rect { clientX := 300, clientY := 50 }).tx| ≤ 12
    ∧ |(tiltOf sampleWrap.rect { clientX := 300, clientY := 50 }).ty| ≤ 12
    ∧ |(tiltOf sampleWrap.rect { clientX := 300, clientY := 50 }).rot| ≤ 6
    ∧ |(tiltOf sampleWrap.rect { clientX := 300, clientY := 50 }).ty / 4| ≤ 6 :=
  tiltOf_bounded sampleWrap.rect { clientX := 300, clientY := 50 }
    (by norm_num [sampleWrap]) (by norm_num [sampleWrap]) (by norm_num [sampleWrap])
    (by norm_num [sampleWrap]) (by norm_num [sampleWrap]) (by norm_num [sampleWrap])

/-! ## Reveal marker -/

theorem mem_classListAdd_of_mem (cls : List String) (c d : String) (h : d ∈ cls) :
    d ∈ classListAdd cls c := by
  unfold classListAdd
  split_ifs
  · exact h
  · exact List.mem_append_left _ h

theorem mem_classListAdd_self (cls : List String) (c : String) :
    c ∈ classListAdd cls c := by
  unfold classListAdd
  split_ifs with hc
  · exact hc
  · simp

theorem revealEntry_keeps (dom : ClassMap) (e : Entry) (el : ℕ)
    (h : "inview" ∈ dom el) : "inview" ∈ revealEntry dom e el := by
  unfold revealEntry
  split_ifs
  · by_cases ht : el = e.target
    · subst ht
      rw [Function.update_same]
      exact mem_classListAdd_self _ _
    · rw [Function.update_noteq ht]
      exact h
  · exact h

theorem ioCallback_keeps (entries : List Entry) (dom : ClassMap) (el : ℕ)
    (h : "inview" ∈ dom el) : "inview" ∈ ioCallback entries dom el := by
  unfold ioCallback
  induction entries generalizing dom with
  | nil => exact h
  | cons e es ih => exact ih (revealEntry dom e) (revealEntry_keeps dom e el h)

theorem ioRun_keeps (callbacks : List (List Entry)) (dom : ClassMap) (el : ℕ)
    (h : "inview" ∈ dom el) : "inview" ∈ ioRun callbacks dom el := by
  unfold ioRun
  induction callbacks generalizing dom with
  | nil => exact h
  | cons es rest ih => exact ih (ioCallback es dom) (ioCallback_keeps es dom el h)

theorem ioCallback_marks (entries : List Entry) (dom : ClassMap) (el : ℕ)
    (h : { target := el, isIntersecting := true } ∈ entries) :
    "inview" ∈ ioCallback entries dom el := by
  unfold ioCallback
  induction entries generalizing dom with
  | nil => simp at h
  | cons e es ih =>
    rcases List.mem_cons.mp h with he | hes
    · have hmark : "inview" ∈ revealEntry dom e el := by
        subst he
        simp only [revealEntry, if_true, Function.update_same]
        exact mem_classListAdd_self _ _
      exact ioCallback_keeps es (revealEntry dom e) el hmark
    · exact ih (revealEntry dom e) hes

/-- C9: an observer callback that holds an intersecting entry for an
    element applies the `inview` marker to it, and once the marker is on an
    element it is still there after every further sequence of observer
    callbacks, whatever their entries. -/
theorem inview_never_removed (dom : ClassMap) (el : ℕ) (first : List Entry)
    (later : List (List Entry))
    (h : "inview" ∈ dom el ∨ { target := el, isIntersecting := true } ∈ first) :
    "inview" ∈ ioCallback first dom el
    ∧ "inview" ∈ ioRun later (ioCallback first dom) el := by
  have h1 : "inview" ∈ ioCallback first dom el := by
    rcases h with h | h
    · exact ioCallback_keeps first dom el h
    · exact ioCallback_marks first dom el h
  exact ⟨h1, ioRun_keeps later _ el h1⟩

theorem inview_never_removed_witness :
    "inview" ∈ ioRun
        [[{ target := 2, isIntersecting := false }],
         [{ target := 1, isIntersecting := true }, { target := 2, isIntersecting := false }]]
        (ioCallback [{ target := 2, isIntersecting := true }] (fun _ => ["card"])) 2 :=
  (inview_never_removed (fun _ => ["card"]) 2 [{ target := 2, isIntersecting := true }]
    [[{ target := 2, isIntersecting := false }],
     [{ target := 1, isIntersecting := true }, { target := 2, isIntersecting := false }]]
    (Or.inr (by simp))).2

/-! ## Particle positions -/

theorem wrapCoord_range (dim c : ℚ) (hd : 0 ≤ dim) :
    -10 ≤ wrapCoord dim c ∧ wrapCoord dim c ≤ dim + 10 := by
  simp only [wrapCoord]
  constructor <;> split_ifs <;> linarith

theorem wrapCoord_below (dim c : ℚ) (hc : c < -10) : wrapCoord dim c = dim + 10 := by
  unfold wrapCoord
  simp [hc]

theorem wrapCoord_above (dim c : ℚ) (hd : 0 ≤ dim) (hc : c > dim + 10) :
    wrapCoord dim c = -10 := by
  unfold wrapCoord
  have h1 : ¬ c < -10 := by linarith
  simp [h1, hc]

theorem wrapCoord_inside (dim c : ℚ) (h1 : -10 ≤ c) (h2 : c ≤ dim + 10) :
    wrapCoord dim c = c := by
  unfold wrapCoord
  have h3 : ¬ c < -10 := by linarith
  have h4 : ¬ c > dim + 10 := by linarith
  simp [h3, h4]

theorem stepParticle_range (w h : ℚ) (hw : 0 ≤ w) (hh : 0 ≤ h) (p : Particle) :
    -10 ≤ (stepParticle w h p).x ∧ (stepParticle w h p).x ≤ w + 10
    ∧ -10 ≤ (stepParticle w h p).y ∧ (stepParticle w h p).y ≤ h + 10 :=
  ⟨(wrapCoord_range w _ hw).1, (wrapCoord_range w _ hw).2,
   (wrapCoord_range h _ hh).1, (wrapCoord_range h _ hh).2⟩

theorem stepN_eq_map (w h : ℚ) (n : ℕ) (ps : List Particle) :
    stepN w h n ps = ps.map ((stepParticle w h)^[n]) := by
  induction n generalizing ps with
  | zero => simp [stepN]
  | succ n ih =>
    rw [stepN, ih, step, List.map_map, Function.iterate_succ]

/-- C10: for a viewport with `w ≥ 0` and `h ≥ 0`, one application of `step`
    to any collection keeps the number of particles, leaves every radius,
    velocity and opacity as it was, and puts every particle, whatever its
    position and velocity before, at `-10 ≤ x ≤ w+10`, `-10 ≤ y ≤ h+10`. -/
theorem step_closed_range (w h : ℚ) (hw : 0 ≤ w) (hh : 0 ≤ h) (ps : List Particle) :
    (step w h ps).length = ps.length
    ∧ List.Forall₂
        (fun p q =>
          -10 ≤ q.x ∧ q.x ≤ w + 10 ∧ -10 ≤ q.y ∧ q.y ≤ h + 10
          ∧ q.r = p.r ∧ q.vx = p.vx ∧ q.vy = p.vy ∧ q.alpha = p.alpha)
        ps (step w h ps) := by
  constructor
  · simp [step]
  · unfold step
    induction ps with
    | nil => exact List.Forall₂.nil
    | cons p ps ih =>
      rw [List.map_cons]
      refine List.Forall₂.cons ?_ ih
      obtain ⟨h1, h2, h3, h4⟩ := stepParticle_range w h hw hh p
      exact ⟨h1, h2, h3, h4, rfl, rfl, rfl, rfl⟩

theorem step_closed_range_witness :
    (step 1200 800 strayParticles).length = strayParticles.length
    ∧ List.Forall₂
        (fun (p q : Particle) =>
          -10 ≤ q.x ∧ q.x ≤ (1200 : ℚ) + 10 ∧ -10 ≤ q.y ∧ q.y ≤ (800 : ℚ) + 10
          ∧ q.r = p.r ∧ q.vx = p.vx ∧ q.vy = p.vy ∧ q.alpha = p.alpha)
        strayParticles (step 1200 800 strayParticles) :=
  step_closed_range 1200 800 (by norm_num) (by norm_num) strayParticles

/-- The particle built from the all-zero random source drifts by `-3/50`
    per frame on both axes for the first 166 frames. -/
theorem zero_particle_drift (n : ℕ) (hn : n ≤ 166) :
    (stepParticle 1200 800)^[n] (mkParticle 1200 800 zeroRnd 0)
      = { x := -(3 * (n : ℚ)) / 50, y := -(3 * (n : ℚ)) / 50, r := 3 / 5,
          vx := -(3 / 50), vy := -(3 / 50), alpha := 3 / 50 } := by
  induction n with
  | zero => norm_num [mkParticle, zeroRnd]
  | succ n ih =>
    rw [Function.iterate_succ_apply', ih (by omega)]
    have hq : ((n : ℚ)) ≤ 165 := by
      have : n ≤ 165 := by omega
      exact_mod_cast this
    have hq0 : (0 : ℚ) ≤ n := Nat.cast_nonneg n
    have hx : wrapCoord 1200 (-(3 * (n : ℚ)) / 50 + -(3 / 50)) = -(3 * ((n + 1 : ℕ) : ℚ)) / 50 := by
      rw [wrapCoord_inside _ _ (by linarith) (by linarith)]
      push_cast
      ring
    have hy : wrapCoord 800 (-(3 * (n : ℚ)) / 50 + -(3 / 50)) = -(3 * ((n + 1 : ℕ) : ℚ)) / 50 := by
      rw [wrapCoord_inside _ _ (by linarith) (by linarith)]
      push_cast
      ring
    simp only [stepParticle, hx, hy]

/-- C3 (fails as stated): with `Math.random()` returning 0 throughout, the
    first particle of a 1200 by 800 viewport starts at `x = 0` with
    `vx = -0.06`; the 167th frame takes it below `-10` and resets it to
    `w + 10 = 1210`, which is not below `w + 10`. -/
theorem stepN_reaches_upper_bound :
    (∀ k, 0 ≤ zeroRnd k ∧ zeroRnd k < 1)
    ∧ ∃ p ∈ stepN 1200 800 167 (resize 1200 800 zeroRnd),
        p.x = 1200 + 10 ∧ ¬ (p.x < 1200 + 10) := by
  constructor
  · intro k
    norm_num [zeroRnd]
  · have hx : ((stepParticle 1200 800)^[167] (mkParticle 1200 800 zeroRnd 0)).x = 1200 + 10 := by
      rw [Function.iterate_succ_apply', zero_particle_drift 166 (by norm_num)]
      simp only [stepParticle]
      rw [wrapCoord_below _ _ (by norm_num)]
    refine ⟨(stepParticle 1200 800)^[167] (mkParticle 1200 800 zeroRnd 0), ?_, hx, ?_⟩
    · rw [stepN_eq_map]
      refine List.mem_map.mpr ⟨mkParticle 1200 800 zeroRnd 0, ?_, rfl⟩
      have hlen : (resize 1200 800 zeroRnd).length = 8 := by
        rw [resize_length]
        norm_num
      simp only [resize, init] at hlen ⊢
      rw [List.length_map, List.length_range] at hlen
      rw [hlen]
      exact List.mem_map.mpr ⟨0, by simp, by norm_num⟩
    · rw [hx]
      exact lt_irrefl _

/-- C3 (amended): every particle created by `init` for a `w` by `h`
    viewport has, after any number `n ≥ 1` of applications of `step`,
    coordinates in the closed ranges `-10 ≤ x ≤ w+10` and `-10 ≤ y ≤ h+10`;
    a coordinate that passes below `-10` is reset to the dimension plus 10
    and one that passes above the dimension plus 10 is reset to `-10`. -/
theorem init_stepN_closed_range (w h : ℕ) (rnd : ℕ → ℚ) (n : ℕ) (hn : 1 ≤ n) :
    (∀ p ∈ stepN w h n (resize w h rnd),
        -10 ≤ p.x ∧ p.x ≤ (w : ℚ) + 10 ∧ -10 ≤ p.y ∧ p.y ≤ (h : ℚ) + 10)
    ∧ (∀ q : Particle,
        (q.x + q.vx < -10 → (stepParticle w h q).x = (w : ℚ) + 10)
        ∧ (q.x + q.vx > (w : ℚ) + 10 → (stepParticle w h q).x = -10)
        ∧ (q.y + q.vy < -10 → (stepParticle w h q).y = (h : ℚ) + 10)
        ∧ (q.y + q.vy > (h : ℚ) + 10 → (stepParticle w h q).y = -10)) := by
  have hw : (0 : ℚ) ≤ w := Nat.cast_nonneg w
  have hh : (0 : ℚ) ≤ h := Nat.cast_nonneg h
  constructor
  · intro p hp
    obtain ⟨m, rfl⟩ : ∃ m, n = m + 1 := ⟨n - 1, by omega⟩
    rw [stepN_eq_map] at hp
    obtain ⟨p0, -, rfl⟩ := List.mem_map.mp hp
    rw [Function.iterate_succ_apply']
    exact stepParticle_range w h hw hh _
  · intro q
    exact ⟨fun hq => wrapCoord_below _ _ hq, fun hq => wrapCoord_above _ _ hw hq,
      fun hq => wrapCoord_below _ _ hq, fun hq => wrapCoord_above _ _ hh hq⟩

theorem init_stepN_closed_range_witness :
    (1 ≤ 167)
    ∧ ∀ p ∈ stepN ((1200 : ℕ) : ℚ) ((800 : ℕ) : ℚ) 167 (resize 1200 800 zeroRnd),
        -10 ≤ p.x ∧ p.x ≤ ((1200 : ℕ) : ℚ) + 10 ∧ -10 ≤ p.y ∧ p.y ≤ ((800 : ℕ) : ℚ) + 10 :=
  ⟨by decide, (init_stepN_closed_range 1200 800 zeroRnd 167 (by decide)).1⟩

end Portfolio
